import Mathlib

/-!
Verification development for the hark recording core: the output-file
lifecycle manager (`RecordingFileManager`), the dual-stream muxing engine
(`DualStreamInterleaver`), and the exception hierarchy (`exceptions.py`).

Samples are opaque payloads (float32 arrays in the source); the core never
computes on sample values, only copies, truncates and concatenates them, so
the embedding is parametric in the sample type `α`.
-/

namespace Hark

/-- A frame: one sample per channel at a single time instant. -/
abbrev Frame (α : Type) := List α

/-- An audio chunk: an ordered sequence of frames for one source. -/
abbrev Chunk (α : Type) := List (Frame α)

/-! ## Exception hierarchy, from `src/mrec_cli/exceptions.py` -/

/-- The exception classes declared in `exceptions.py`, plus the Python
built-in `Exception` they all ultimately derive from. -/
inductive ExcClass where
  | pyException
  | mrecError
  | configError
  | configNotFoundError
  | configValidationError
  | audioError
  | noMicrophoneError
  | audioDeviceBusyError
  | recordingTooShortError
  | preprocessingError
  | transcriptionError
  | modelNotFoundError
  | modelDownloadError
  | insufficientDiskSpaceError
  | outputError
deriving DecidableEq, Repr

/-- The direct base class of each exception, exactly as written in
`exceptions.py` (`class MrecError(Exception)`, `class AudioError(MrecError)`,
`class AudioDeviceBusyError(AudioError)`, ...). -/
def directBase : ExcClass → Option ExcClass
  | .pyException => none
  | .mrecError => some .pyException
  | .configError => some .mrecError
  | .configNotFoundError => some .configError
  | .configValidationError => some .configError
  | .audioError => some .mrecError
  | .noMicrophoneError => some .audioError
  | .audioDeviceBusyError => some .audioError
  | .recordingTooShortError => some .audioError
  | .preprocessingError => some .mrecError
  | .transcriptionError => some .mrecError
  | .modelNotFoundError => some .transcriptionError
  | .modelDownloadError => some .transcriptionError
  | .insufficientDiskSpaceError => some .mrecError
  | .outputError => some .mrecError

/-- Python `isinstance`-style subclass relation: the reflexive-transitive
closure of `directBase`. -/
inductive IsSubclassOf : ExcClass → ExcClass → Prop where
  | refl (c : ExcClass) : IsSubclassOf c c
  | step {a b c : ExcClass} : directBase a = some b → IsSubclassOf b c →
      IsSubclassOf a c

/-! ## Output sink: `RecordingFileManager`

Modelled from the spec: `hark/recorder.py` is not under `src/` (only its
tests are), so `RecordingFileManager` is modelled from spec §4.1 and §3.
The on-disk sound file is a handle with a closed flag and the frames
appended so far; filesystem presence of the temp file is an explicit
Boolean. Fallible environment actions (opening the file, the underlying
file write) are modelled by a Boolean success argument. -/

/-- An open sound-file handle: closed flag plus frames written to disk. -/
structure SoundFileH (α : Type) where
  closed : Bool
  content : Chunk α
deriving Repr, DecidableEq

/-- Modelled from the spec: state of `RecordingFileManager` (spec §4.1) —
configuration, current path, underlying temp file and its on-disk presence,
the sound-file handle, and the running total of frames written. -/
structure RecordingFileManager (α : Type) where
  temp_dir : String
  sample_rate : Nat
  channels : Nat
  file_path : Option String
  temp_file : Option String
  temp_file_on_disk : Bool
  sound_file : Option (SoundFileH α)
  frames_written : Nat
deriving Repr, DecidableEq

namespace RecordingFileManager

/-- Modelled from the spec: construction — stores configuration, no file
yet, zero frames written. -/
def init (α : Type) (dir : String) (sr ch : Nat) : RecordingFileManager α :=
  { temp_dir := dir
    sample_rate := sr
    channels := ch
    file_path := none
    temp_file := none
    temp_file_on_disk := false
    sound_file := none
    frames_written := 0 }

/-- Modelled from the spec: `is_open` — true iff a sound file exists and is
not closed. -/
def is_open (m : RecordingFileManager α) : Bool :=
  match m.sound_file with
  | none => false
  | some f => !f.closed

/-- Modelled from the spec: `create(path)` (spec §4.1) — `openOk` is the
success of opening the sound file. On success the temp file exists on disk,
the handle is open and empty, and the path is returned. On any failure the
half-created temp file is cleaned up (best effort), no path is recorded,
and a device-busy error is raised. -/
def create (m : RecordingFileManager α) (path : String) (openOk : Bool) :
    RecordingFileManager α × Except ExcClass String :=
  if openOk then
    ({ m with
        file_path := some path
        temp_file := some path
        temp_file_on_disk := true
        sound_file := some { closed := false, content := [] } },
      Except.ok path)
  else
    ({ m with
        file_path := none
        temp_file := none
        temp_file_on_disk := false
        sound_file := none },
      Except.error ExcClass.audioDeviceBusyError)

/-- Modelled from the spec: `write(block)` (spec §4.1) — returns 0 and does
nothing if the file is absent or closed; otherwise attempts the underlying
file write (`writeOk` is its success): on success appends the block,
accumulates the frame count and returns it; a write failure is absorbed and
returns 0. -/
def write (m : RecordingFileManager α) (block : Chunk α) (writeOk : Bool) :
    RecordingFileManager α × Nat :=
  match m.sound_file with
  | none => (m, 0)
  | some f =>
    if f.closed then (m, 0)
    else if writeOk then
      ({ m with
          sound_file := some { f with content := f.content ++ block }
          frames_written := m.frames_written + block.length },
        block.length)
    else (m, 0)

/-- Modelled from the spec: `close()` (spec §4.1) — idempotent, swallows
close-time errors, always leaves the manager with no handle. -/
def close (m : RecordingFileManager α) : RecordingFileManager α :=
  { m with sound_file := none }

/-- Modelled from the spec: `cleanup()` (spec §4.1) — `close()` then delete
the temp file if present, tolerating it already being gone; afterwards no
temp file is recorded. -/
def cleanup (m : RecordingFileManager α) : RecordingFileManager α :=
  let m1 := m.close
  { m1 with temp_file := none, temp_file_on_disk := false }

end RecordingFileManager

/-- One operation on a `RecordingFileManager`, for stating invariants that
hold across every operation. -/
inductive FMOp (α : Type) where
  | create (path : String) (openOk : Bool)
  | write (block : Chunk α) (writeOk : Bool)
  | close
  | cleanup

/-- The state reached by running one operation. -/
def FMStep (m : RecordingFileManager α) : FMOp α → RecordingFileManager α
  | .create p ok => (m.create p ok).1
  | .write b ok => (m.write b ok).1
  | .close => m.close
  | .cleanup => m.cleanup

/-! ## Stream muxer: `DualStreamInterleaver`

Modelled from the spec: `hark/recorder.py` is not under `src/`, so the
interleaver is modelled from spec §4.2. Buffers are FIFO lists of chunks;
the processing step is the worker-loop body (spec §4.2 step 1), returned as
the ordered list of blocks written through the sink together with the
remaining buffers. -/

/-- Modelled from the spec: pair one mic chunk with one speaker chunk
(spec §4.2 steps 1b-1c) — let `n = min` of the lengths, truncate both to
`n` frames, and concatenate channels per frame, mic channels first. -/
def interleavePair (mic spk : Chunk α) : Chunk α :=
  let n := min mic.length spk.length
  List.zipWith (fun f g => f ++ g) (mic.take n) (spk.take n)

/-- Modelled from the spec: buffer state of `DualStreamInterleaver`
(spec §4.2) — one FIFO queue of chunks per source. -/
structure DualStreamInterleaver (α : Type) where
  mic_buffer : List (Chunk α)
  speaker_buffer : List (Chunk α)
deriving Repr, DecidableEq

namespace DualStreamInterleaver

/-- Modelled from the spec: a fresh interleaver has empty buffers. -/
def init (α : Type) : DualStreamInterleaver α :=
  { mic_buffer := [], speaker_buffer := [] }

/-- Modelled from the spec: `add_mic_data` — append the chunk value to the
mic queue (the copy taken at ingest). -/
def add_mic_data (st : DualStreamInterleaver α) (c : Chunk α) :
    DualStreamInterleaver α :=
  { st with mic_buffer := st.mic_buffer ++ [c] }

/-- Modelled from the spec: `add_speaker_data` — append the chunk value to
the speaker queue (the copy taken at ingest). -/
def add_speaker_data (st : DualStreamInterleaver α) (c : Chunk α) :
    DualStreamInterleaver α :=
  { st with speaker_buffer := st.speaker_buffer ++ [c] }

end DualStreamInterleaver

/-- Modelled from the spec: `_process_buffers` (spec §4.2 step 1) — while
both queues are non-empty, pop the oldest chunk from each, interleave the
pair and write the block through the sink. Returns the ordered list of
blocks written and the two remaining queues. -/
def processBuffers : List (Chunk α) → List (Chunk α) →
    List (Chunk α) × List (Chunk α) × List (Chunk α)
  | m :: ms, s :: ss =>
    let rest := processBuffers ms ss
    (interleavePair m s :: rest.1, rest.2)
  | ms, ss => ([], ms, ss)

/-- Modelled from the spec: `_flush_remaining` (spec §4.2) — write every
fully matched pair that remains, then discard any unmatched remainder,
leaving both queues empty. Returns the blocks written and the final state. -/
def flushRemaining (st : DualStreamInterleaver α) :
    List (Chunk α) × DualStreamInterleaver α :=
  ((processBuffers st.mic_buffer st.speaker_buffer).1,
    { mic_buffer := [], speaker_buffer := [] })

/-! ## Producer buffer aliasing model

The producers hand the interleaver a mutable array they may overwrite
afterwards; copy-on-ingest means the queue stores the array's value at
enqueue time. A store maps a reference id to the array currently held in
that buffer. -/

/-- A store of producer-owned mutable chunk buffers, addressed by id. -/
def Store (α : Type) := Nat → Chunk α

/-- Read the chunk currently held in buffer `r`. -/
def readRef (s : Store α) (r : Nat) : Chunk α := s r

/-- Overwrite buffer `r` with a new chunk (the producer mutating its
buffer for the next block). -/
def writeRef (s : Store α) (r : Nat) (v : Chunk α) : Store α :=
  fun x => if x = r then v else s x

/-- Modelled from the spec: `add_mic_data` called on the array in buffer
`r` — the copy taken at ingest is the buffer's value at call time. -/
def add_mic_data_ref (st : DualStreamInterleaver α) (s : Store α) (r : Nat) :
    DualStreamInterleaver α :=
  st.add_mic_data (readRef s r)

/-- Modelled from the spec: `add_speaker_data` called on the array in
buffer `r` — the copy taken at ingest is the buffer's value at call time. -/
def add_speaker_data_ref (st : DualStreamInterleaver α) (s : Store α) (r : Nat) :
    DualStreamInterleaver α :=
  st.add_speaker_data (readRef s r)

/-! ## Sample states for concrete evaluation -/

/-- A manager holding a closed sound-file handle. -/
def closedFM : RecordingFileManager Int :=
  { temp_dir := "tmp"
    sample_rate := 16000
    channels := 1
    file_path := none
    temp_file := none
    temp_file_on_disk := false
    sound_file := some { closed := true, content := [] }
    frames_written := 0 }

/-- A manager holding an open, empty sound-file handle. -/
def openFM : RecordingFileManager Int :=
  { closedFM with sound_file := some { closed := false, content := [] } }

/-! ## Helper lemmas -/

theorem is_open_iff (m : RecordingFileManager α) :
    m.is_open = true ↔ ∃ f, m.sound_file = some f ∧ f.closed = false := by
  cases h : m.sound_file with
  | none => simp [RecordingFileManager.is_open, h]
  | some f => cases hc : f.closed <;> simp [RecordingFileManager.is_open, h, hc]

theorem interleavePair_length (m s : Chunk α) :
    (interleavePair m s).length = min m.length s.length := by
  simp [interleavePair]

theorem interleavePair_getElem? (m s : Chunk α) (i : Nat)
    (hm : i < m.length) (hs : i < s.length) :
    (interleavePair m s)[i]? = some (m.get ⟨i, hm⟩ ++ s.get ⟨i, hs⟩) := by
  have hi : i < min m.length s.length := by omega
  simp [interleavePair, List.getElem?_zipWith, List.getElem?_take, hi,
    List.getElem?_eq_getElem, hm, hs]

theorem processBuffers_cons (m s : Chunk α) (ms ss : List (Chunk α)) :
    processBuffers (m :: ms) (s :: ss) =
      (interleavePair m s :: (processBuffers ms ss).1, (processBuffers ms ss).2) :=
  rfl

theorem processBuffers_fst_eq_zipWith (ms ss : List (Chunk α)) :
    (processBuffers ms ss).1 = List.zipWith interleavePair ms ss := by
  induction ms generalizing ss with
  | nil => cases ss <;> rfl
  | cons m ms ih =>
    cases ss with
    | nil => rfl
    | cons s ss => simp [processBuffers, ih]

theorem processBuffers_snd_of_length_eq (ms ss : List (Chunk α))
    (h : ms.length = ss.length) : (processBuffers ms ss).2 = ([], []) := by
  induction ms generalizing ss with
  | nil => cases ss with
    | nil => rfl
    | cons s ss => simp at h
  | cons m ms ih =>
    cases ss with
    | nil => simp at h
    | cons s ss =>
      simp at h
      simp [processBuffers, ih ss h]

theorem processBuffers_of_empty (ms ss : List (Chunk α))
    (h : ms = [] ∨ ss = []) : processBuffers ms ss = ([], ms, ss) := by
  rcases h with h | h
  · subst h; rfl
  · subst h; cases ms <;> rfl

/-! ## Claim theorems -/

/-- C1: for every mic/speaker chunk pair popped by the processing step,
exactly one block is written to the sink, of `min a b` frames, whose frames
are the mic frame followed by the speaker frame (mic channels first);
excess frames of the longer chunk are discarded, not carried toward the
remaining buffers, which come from the tails alone. -/
theorem mux_pair_min_truncation (m s : Chunk α) (ms ss : List (Chunk α)) :
    processBuffers (m :: ms) (s :: ss) =
      (interleavePair m s :: (processBuffers ms ss).1, (processBuffers ms ss).2) ∧
    (interleavePair m s).length = min m.length s.length ∧
    ∀ i (hm : i < m.length) (hs : i < s.length),
      (interleavePair m s)[i]? = some (m.get ⟨i, hm⟩ ++ s.get ⟨i, hs⟩) :=
  ⟨processBuffers_cons m s ms ss, interleavePair_length m s,
    fun i hm hs => interleavePair_getElem? m s i hm hs⟩

/-- Witness for C1: a 3-frame mic chunk against a 2-frame speaker chunk
over `Int` samples, evaluated at frame index 1. -/
theorem mux_pair_min_truncation_witness :
    (interleavePair ([[5], [5], [5]] : Chunk Int) [[3], [4]])[1]? =
      some (([[5], [5], [5]] : Chunk Int).get ⟨1, by decide⟩ ++
        ([[3], [4]] : Chunk Int).get ⟨1, by decide⟩) :=
  (mux_pair_min_truncation [[5], [5], [5]] [[3], [4]] [] []).2.2 1
    (by decide) (by decide)

/-- C2: `write` returns 0 and leaves the manager unchanged whenever the
file is absent or closed, and whenever the underlying write fails; only an
open file and a successful write return the block's frame count. -/
theorem write_absorbs_errors (m : RecordingFileManager α) (b : Chunk α) :
    (m.is_open = false → ∀ ok, m.write b ok = (m, 0)) ∧
    (m.is_open = true → m.write b false = (m, 0)) ∧
    (m.is_open = true → (m.write b true).2 = b.length) := by
  unfold RecordingFileManager.is_open RecordingFileManager.write
  cases h : m.sound_file with
  | none => simp
  | some f => cases hc : f.closed <;> simp [hc]

/-- Witness for C2: a closed manager absorbs a write; an open manager
reports the block's frame count. -/
theorem write_absorbs_errors_witness :
    closedFM.write [[7]] true = (closedFM, 0) ∧
    openFM.write [[7]] false = (openFM, 0) ∧
    (openFM.write [[7]] true).2 = 1 :=
  ⟨(write_absorbs_errors closedFM [[7]]).1 (by decide) true,
    (write_absorbs_errors openFM [[7]]).2.1 (by decide),
    (write_absorbs_errors openFM [[7]]).2.2 (by decide)⟩

/-- C3: the final flush writes one block per fully matched pair still
queued (in FIFO order, each the min-truncated interleaving) — `min` of the
two queue lengths blocks in total — and leaves both queues empty,
discarding any unmatched remainder. -/
theorem flush_writes_all_matched (st : DualStreamInterleaver α) :
    (flushRemaining st).1 =
      List.zipWith interleavePair st.mic_buffer st.speaker_buffer ∧
    (flushRemaining st).1.length =
      min st.mic_buffer.length st.speaker_buffer.length ∧
    (flushRemaining st).2.mic_buffer = [] ∧
    (flushRemaining st).2.speaker_buffer = [] := by
  refine ⟨processBuffers_fst_eq_zipWith _ _, ?_, rfl, rfl⟩
  show (processBuffers st.mic_buffer st.speaker_buffer).1.length = _
  rw [processBuffers_fst_eq_zipWith]
  exact List.length_zipWith _ _ _

/-- C4: when at most one queue is non-empty, the processing step writes
nothing to the sink and retains both queues unchanged (no chunk partially
consumed). -/
theorem no_write_when_one_empty (ms ss : List (Chunk α))
    (h : ms = [] ∨ ss = []) : processBuffers ms ss = ([], ms, ss) :=
  processBuffers_of_empty ms ss h

/-- Witness for C4: mic data queued but no speaker data — nothing is
written and the mic chunk is fully retained. -/
theorem no_write_when_one_empty_witness :
    processBuffers ([[[5]]] : List (Chunk Int)) [] = ([], [[[5]]], []) :=
  no_write_when_one_empty [[[5]]] [] (Or.inr rfl)

/-- C5: `frames_written` starts at 0, is non-decreasing under every
operation, increases by exactly the block length on a successful write
while open, and never changes while the file is not open. -/
theorem frames_written_monotone (dir : String) (sr ch : Nat)
    (m : RecordingFileManager α) (op : FMOp α) (b : Chunk α) :
    (RecordingFileManager.init α dir sr ch).frames_written = 0 ∧
    m.frames_written ≤ (FMStep m op).frames_written ∧
    (m.is_open = true →
      (m.write b true).1.frames_written = m.frames_written + b.length) ∧
    (m.is_open = false → (FMStep m op).frames_written = m.frames_written) := by
  refine ⟨rfl, ?_, ?_, ?_⟩
  · cases op with
    | create p ok =>
      cases ok <;> simp [FMStep, RecordingFileManager.create]
    | write bl ok =>
      show m.frames_written ≤ (m.write bl ok).1.frames_written
      unfold RecordingFileManager.write
      cases h : m.sound_file with
      | none => simp
      | some f => cases hc : f.closed <;> cases ok <;> simp [hc]
    | close => exact Nat.le_refl _
    | cleanup => exact Nat.le_refl _
  · intro ho
    rcases (is_open_iff m).mp ho with ⟨f, hf, hc⟩
    unfold RecordingFileManager.write
    rw [hf]
    simp [hc]
  · intro ho
    cases op with
    | create p ok =>
      cases ok <;> simp [FMStep, RecordingFileManager.create]
    | write bl ok =>
      show (m.write bl ok).1.frames_written = m.frames_written
      unfold RecordingFileManager.write
      cases h : m.sound_file with
      | none => simp
      | some f =>
        cases hc : f.closed with
        | true => cases ok <;> simp [hc]
        | false =>
          exact absurd ((is_open_iff m).mpr ⟨f, h, hc⟩) (by simp [ho])
    | close => rfl
    | cleanup => rfl

/-- Witness for C5: the open sample manager gains exactly one frame on a
successful 1-frame write; a close on the closed sample manager leaves the
counter unchanged. -/
theorem frames_written_monotone_witness :
    (openFM.write [[7]] true).1.frames_written = openFM.frames_written + 1 ∧
    (FMStep closedFM FMOp.close).frames_written = closedFM.frames_written :=
  ⟨(frames_written_monotone ("t") 1 1 openFM FMOp.close [[7]]).2.2.1 (by decide),
    (frames_written_monotone ("t") 1 1 closedFM FMOp.close [[7]]).2.2.2 (by decide)⟩

/-- C6: a failed `create` raises the device-busy error and leaves the
manager in its not-open state with no path recorded and no partial temp
file on disk. -/
theorem create_fails_clean (m : RecordingFileManager α) (path : String) :
    (m.create path false).2 = Except.error ExcClass.audioDeviceBusyError ∧
    (m.create path false).1.file_path = none ∧
    (m.create path false).1.temp_file = none ∧
    (m.create path false).1.temp_file_on_disk = false ∧
    (m.create path false).1.is_open = false := by
  simp [RecordingFileManager.create, RecordingFileManager.is_open]

/-- C7: both ingestion methods store the referenced array's value at
enqueue time; overwriting the producer's buffer afterwards leaves the
stored queue entry unchanged (and distinct from the mutated value). -/
theorem copy_on_ingest (st : DualStreamInterleaver α) (s : Store α) (r : Nat)
    (v : Chunk α) (hv : v ≠ readRef s r) :
    ((add_mic_data_ref st s r).mic_buffer.getLast? = some (readRef s r) ∧
      (add_mic_data_ref st s r).mic_buffer.getLast? ≠
        some (readRef (writeRef s r v) r)) ∧
    ((add_speaker_data_ref st s r).speaker_buffer.getLast? = some (readRef s r) ∧
      (add_speaker_data_ref st s r).speaker_buffer.getLast? ≠
        some (readRef (writeRef s r v) r)) := by
  have hw : readRef (writeRef s r v) r = v := by simp [readRef, writeRef]
  have h1 : (add_mic_data_ref st s r).mic_buffer.getLast? =
      some (readRef s r) := by
    simp [add_mic_data_ref, DualStreamInterleaver.add_mic_data]
  have h2 : (add_speaker_data_ref st s r).speaker_buffer.getLast? =
      some (readRef s r) := by
    simp [add_speaker_data_ref, DualStreamInterleaver.add_speaker_data]
  refine ⟨⟨h1, ?_⟩, ⟨h2, ?_⟩⟩
  · rw [h1, hw]
    intro hcon
    exact hv (Option.some.inj hcon).symm
  · rw [h2, hw]
    intro hcon
    exact hv (Option.some.inj hcon).symm

/-- Witness for C7: enqueue the value `[[5]]` from buffer 0, then mutate
the buffer to `[[7]]` — the stored entry is still `[[5]]`. -/
theorem copy_on_ingest_witness :
    ((add_mic_data_ref (DualStreamInterleaver.init Int) (fun _ => [[5]])
        0).mic_buffer.getLast? = some [[5]] ∧
      (add_mic_data_ref (DualStreamInterleaver.init Int) (fun _ => [[5]])
        0).mic_buffer.getLast? ≠
        some (readRef (writeRef (fun _ => [[5]]) 0 [[7]]) 0)) ∧
    ((add_speaker_data_ref (DualStreamInterleaver.init Int) (fun _ => [[5]])
        0).speaker_buffer.getLast? = some [[5]] ∧
      (add_speaker_data_ref (DualStreamInterleaver.init Int) (fun _ => [[5]])
        0).speaker_buffer.getLast? ≠
        some (readRef (writeRef (fun _ => [[5]]) 0 [[7]]) 0)) :=
  copy_on_ingest (DualStreamInterleaver.init Int) (fun _ => [[5]]) 0 [[7]]
    (by decide)

/-- C8: for `m` matched pairs queued, one pass performs exactly `m` writes,
pairing the i-th mic chunk with the i-th speaker chunk in FIFO order, each
write being the min-truncated interleaving of its pair. -/
theorem fifo_pairwise_writes (ms ss : List (Chunk α))
    (h : ms.length = ss.length) :
    (processBuffers ms ss).1.length = ms.length ∧
    (processBuffers ms ss).2 = ([], []) ∧
    ∀ i (hm : i < ms.length) (hs : i < ss.length),
      (processBuffers ms ss).1[i]? =
        some (interleavePair (ms.get ⟨i, hm⟩) (ss.get ⟨i, hs⟩)) ∧
      (interleavePair (ms.get ⟨i, hm⟩) (ss.get ⟨i, hs⟩)).length =
        min (ms.get ⟨i, hm⟩).length (ss.get ⟨i, hs⟩).length := by
  refine ⟨?_, processBuffers_snd_of_length_eq ms ss h, ?_⟩
  · rw [processBuffers_fst_eq_zipWith, List.length_zipWith]
    omega
  · intro i hm hs
    refine ⟨?_, interleavePair_length _ _⟩
    rw [processBuffers_fst_eq_zipWith]
    simp [List.getElem?_zipWith, List.getElem?_eq_getElem, hm, hs]

/-- Witness for C8: two matched 1-frame pairs over `Int` samples produce
two writes, the second pairing the second chunks. -/
theorem fifo_pairwise_writes_witness :
    (processBuffers ([[[1]], [[2]]] : List (Chunk Int)) [[[3]], [[4]]]).1.length
      = 2 ∧
    (processBuffers ([[[1]], [[2]]] : List (Chunk Int)) [[[3]], [[4]]]).1[1]? =
      some (interleavePair [[2]] [[4]]) := by
  have h := fifo_pairwise_writes ([[[1]], [[2]]] : List (Chunk Int))
    [[[3]], [[4]]] (by decide)
  exact ⟨h.1, (h.2.2 1 (by decide) (by decide)).1⟩

/-- C9: `cleanup` is total (never raises), closes any open handle, removes
the temp file, leaves no temp file recorded, and is idempotent: a second
`cleanup` reaches the same state. -/
theorem cleanup_idempotent_safe (m : RecordingFileManager α) :
    m.cleanup.sound_file = none ∧
    m.cleanup.temp_file = none ∧
    m.cleanup.temp_file_on_disk = false ∧
    m.cleanup.cleanup = m.cleanup :=
  ⟨rfl, rfl, rfl, rfl⟩

/-- C10: `AudioDeviceBusyError` derives from `AudioError`, which derives
from the base `MrecError`; hence the error a failed `create` raises is
catchable as `MrecError`. -/
theorem exception_hierarchy_catchable :
    directBase ExcClass.audioDeviceBusyError = some ExcClass.audioError ∧
    directBase ExcClass.audioError = some ExcClass.mrecError ∧
    IsSubclassOf ExcClass.audioDeviceBusyError ExcClass.mrecError ∧
    ∀ (α : Type) (m : RecordingFileManager α) (path : String),
      ∃ e, (m.create path false).2 = Except.error e ∧
        IsSubclassOf e ExcClass.mrecError := by
  refine ⟨rfl, rfl, ?_, ?_⟩
  · exact .step rfl (.step rfl (.refl _))
  · intro α m path
    exact ⟨ExcClass.audioDeviceBusyError, rfl, .step rfl (.step rfl (.refl _))⟩

end Hark
